import Mathlib

/-!
Shallow embedding of the MobileSpectro backend (src/backend/main_v2.py) and
proofs about its session state machine, frame ingestion, history view and
record persistence.

Modelling conventions:
- Python JSON-like values (dicts, lists, strings, numbers, None) are the
  inductive type `Json`; Python dict lookup is `lookupAssoc`.
- Machine state is `AppState`, transcribing the fields of the Python class
  `AppState` (app_state, ui_state_text, latest_frame_jpeg, scan_history,
  current_scan_data).  Frame bytes are `List Nat`.
- The external image codec (cv2.imdecode) is a parameter
  `decode : List Nat → Bool` returning whether the bytes decode to an image,
  as the spec treats image decoding as an external collaborator.
- The filesystem used by the record store is `Files`, a finite map from path
  strings to file contents.  JSON (de)serialization mechanics are out of the
  core per the spec, so a stored file is either `FileContent.good j`
  (parseable, holding document `j`, what json.dump writes) or
  `FileContent.corrupt` (bytes json.load cannot parse).
- Each HTTP handler is a pure function from its inputs and the current state
  to the next state plus an `Except HTTPException` response; a raised
  fastapi.HTTPException is the `.error` case.  The Python pattern
  `except Exception as e: raise HTTPException(500, str(e))` is transcribed by
  wrapping the caught exception's string form in a 500.
- datetime.now() results are explicit string parameters (`ts` for the
  strftime form, `now` for the isoformat form).
-/

namespace MobileSpectro

/-- Json values mirroring Python's JSON-like data (dict / list / str / int /
bool / None) as used by the backend. -/
inductive Json where
  | null : Json
  | bool : Bool → Json
  | num : Int → Json
  | str : String → Json
  | arr : List Json → Json
  | obj : List (String × Json) → Json

/-- Python truthiness of a JSON-like value: None, False, 0, empty string,
empty list and empty dict are falsy. -/
def Json.truthy : Json → Bool
  | Json.null => false
  | Json.bool b => b
  | Json.num n => decide (n ≠ 0)
  | Json.str s => decide (s ≠ ("") )
  | Json.arr xs => !xs.isEmpty
  | Json.obj fs => !fs.isEmpty

/-- Python truthiness of an optional value (None is falsy). -/
def pyTruthy : Option Json → Bool
  | none => false
  | some j => j.truthy

/-- Python dict lookup on an association list (first match wins; Python dicts
have unique keys). -/
def lookupAssoc : List (String × Json) → String → Option Json
  | [], _ => none
  | (k, v) :: rest, key => if k = key then some v else lookupAssoc rest key

/-- Python dict.get with a default, as in result_data.get("analysis", ...).
Callers in the backend only apply it to dicts (FastAPI validates the body as
a dict); on a non-dict the default is returned. -/
def Json.getD (j : Json) (key : String) (d : Json) : Json :=
  match j with
  | Json.obj fs =>
    match lookupAssoc fs key with
    | some v => v
    | none => d
  | _ => d

/-- Python dict.get with no default on an association list: absent keys give
None, as in analysis.get("v0"). -/
def dictGetNone (fs : List (String × Json)) (key : String) : Json :=
  match lookupAssoc fs key with
  | some v => v
  | none => Json.null

/-- Python type name of a JSON-like value, used to transcribe the message of
an AttributeError raised by calling .get on a non-dict. -/
def pyTypeName : Json → String
  | Json.null => ("NoneType")
  | Json.bool _ => ("bool")
  | Json.num _ => ("int")
  | Json.str _ => ("str")
  | Json.arr _ => ("list")
  | Json.obj _ => ("dict")

/-- Message of the Python AttributeError raised when .get is called on a
non-dict value. -/
def pyNoAttrGetMsg (j : Json) : String :=
  ("'") ++ pyTypeName j ++ ("' object has no attribute 'get'")

/-- Message of the json.JSONDecodeError raised by json.load on bytes that are
not parseable JSON (transcribed representative message). -/
def jsonDecodeErrMsg : String := ("Expecting value: line 1 column 1 (char 0)")

/-- fastapi.HTTPException with its status code and detail string. -/
structure HTTPException where
  status_code : Nat
  detail : String
deriving DecidableEq

/-- String form str(e) of a fastapi/starlette HTTPException, which formats as
"status_code: detail". -/
def strOfHTTPException (e : HTTPException) : String :=
  toString e.status_code ++ (": ") ++ e.detail

/-- Shared mutable state of the backend, transcribing the Python class
AppState (main_v2.py lines 31-38). -/
structure AppState where
  app_state : String
  ui_state_text : String
  latest_frame_jpeg : Option (List Nat)
  scan_history : List Json
  current_scan_data : Option Json

/-- Initial state built by AppState.__init__. -/
def initState : AppState :=
  { app_state := ("IDLE")
    ui_state_text := ("State: IDLE")
    latest_frame_jpeg := none
    scan_history := []
    current_scan_data := none }

/-- Background task scheduled via background_tasks.add_task. -/
inductive BgTask where
  | save_scan_record : Json → BgTask

/-- Session dict created by the start-scan branch of handle_action. -/
def newSession (now : String) : Json :=
  Json.obj [(("timestamp"), Json.str now),
            (("frames"), Json.arr []),
            (("analysis"), Json.null)]

/-- POST /action/(action) handler, transcribing handle_action
(main_v2.py lines 96-129).  Returns the new shared state, the scheduled
background tasks, and the HTTP response. -/
def handle_action (s : AppState) (action : String) (now : String) :
    AppState × List BgTask × Except HTTPException Json :=
  if action = ("start-scan") then
    ({ s with
        app_state := ("BLANKING_COUNTDOWN")
        ui_state_text := ("State: BLANKING_COUNTDOWN")
        current_scan_data := some (newSession now) },
     [],
     Except.ok (Json.obj [(("status"), Json.str ("scan_started"))]))
  else if action = ("stop-scan") then
    let (tasks, hist) :=
      match s.current_scan_data with
      | some d =>
        if d.truthy then
          ([BgTask.save_scan_record d], s.scan_history ++ [d])
        else
          ([], s.scan_history)
      | none => ([], s.scan_history)
    ({ s with
        app_state := ("IDLE")
        ui_state_text := ("State: IDLE")
        scan_history := hist
        current_scan_data := none },
     tasks,
     Except.ok (Json.obj [(("status"), Json.str ("scan_stopped"))]))
  else if action = ("proceed-to-scan") then
    ({ s with
        app_state := ("SCANNING")
        ui_state_text := ("State: SCANNING") },
     [],
     Except.ok (Json.obj [(("status"), Json.str ("proceeding_to_scan"))]))
  else
    (s, [], Except.error ⟨400, ("Unknown action: ") ++ action⟩)

/-- POST /frame handler, transcribing receive_frame (main_v2.py lines 69-91).
The bytes are stored as the latest frame first; only then are they decoded
for verification, and an undecodable payload raises HTTPException(400), which
the surrounding except-Exception block rewraps into a 500.  The assignment to
latest_frame_jpeg is not rolled back when the exception is raised. -/
def receive_frame (decode : List Nat → Bool) (s : AppState)
    (contents : List Nat) : AppState × Except HTTPException Json :=
  let s1 := { s with latest_frame_jpeg := some contents }
  if decode contents then
    (s1, Except.ok (Json.obj
      [(("status"), Json.str ("ok")),
       (("frame_size"), Json.num (Int.ofNat contents.length))]))
  else
    (s1, Except.error ⟨500, strOfHTTPException ⟨400, ("Invalid JPEG")⟩⟩)

/-- Contents of a stored record file: either a parseable JSON document (what
json.dump writes) or bytes json.load cannot parse. -/
inductive FileContent where
  | good : Json → FileContent
  | corrupt : FileContent

/-- Filesystem holding the record files, a finite map from paths to
contents. -/
abbrev Files := List (String × FileContent)

/-- Writing a file: overwrite the path if present, else add it. -/
def writeRecordFile : Files → String → FileContent → Files
  | [], p, c => [(p, c)]
  | (q, d) :: rest, p, c =>
    if q = p then (p, c) :: rest else (q, d) :: writeRecordFile rest p c

/-- Reading a file if it exists (os.path.exists plus open). -/
def lookupRecordFile : Files → String → Option FileContent
  | [], _ => none
  | (q, d) :: rest, p => if q = p then some d else lookupRecordFile rest p

/-- POST /save-result handler, transcribing save_result (main_v2.py lines
134-157).  The record file is written synchronously (outside the lock), then
a summary entry is appended to scan_history (inside the lock), then the
response with the filename is returned.  A non-dict "analysis" value makes
the .get("v0") call raise AttributeError, rewrapped into a 500 by the
except-Exception block after the file was already written. -/
def save_result (ts : String) (now : String) (fs : Files) (s : AppState)
    (result_data : Json) : Files × AppState × Except HTTPException Json :=
  let filename := ("records/") ++ (("scan_") ++ ts) ++ (".json")
  let fs1 := writeRecordFile fs filename (FileContent.good result_data)
  match result_data.getD ("analysis") (Json.obj []) with
  | Json.obj afields =>
    let entry := Json.obj
      [(("timestamp"), Json.str now),
       (("filename"), Json.str filename),
       (("v0"), dictGetNone afields ("v0")),
       (("r_squared"), dictGetNone afields ("r_squared"))]
    (fs1,
     { s with scan_history := s.scan_history ++ [entry] },
     Except.ok (Json.obj [(("status"), Json.str ("saved")),
                          (("filename"), Json.str filename)]))
  | other =>
    (fs1, s, Except.error ⟨500, pyNoAttrGetMsg other⟩)

/-- GET /history handler, transcribing get_scan_history (main_v2.py lines
160-167).  Returns the (unchanged) state and the response dict; the Python
slice scan_history[-20:] is List.drop (length - 20). -/
def get_scan_history (s : AppState) : AppState × Json :=
  (s, Json.obj
    [(("count"), Json.num (Int.ofNat s.scan_history.length)),
     (("scans"), Json.arr (s.scan_history.drop (s.scan_history.length - 20)))])

/-- View of the last twenty history entries exposed by get_scan_history,
the Python slice scan_history[-20:]. -/
def historyView (s : AppState) : List Json :=
  s.scan_history.drop (s.scan_history.length - 20)

/-- GET /records/(scan_id) handler, transcribing get_scan_record
(main_v2.py lines 170-185).  A missing file raises HTTPException(404, "Scan
not found") and an unparseable file raises json.JSONDecodeError; both are
raised inside the try block, so the except-Exception block rewraps each into
HTTPException(500, str(e)). -/
def get_scan_record (fs : Files) (scan_id : String) :
    Except HTTPException Json :=
  let filepath := ("records/") ++ scan_id ++ (".json")
  match lookupRecordFile fs filepath with
  | none =>
    Except.error ⟨500, strOfHTTPException ⟨404, ("Scan not found")⟩⟩
  | some FileContent.corrupt =>
    Except.error ⟨500, jsonDecodeErrMsg⟩
  | some (FileContent.good d) => Except.ok d

/-- Whole-system state: the record files on disk plus the in-memory shared
state. -/
structure World where
  files : Files
  st : AppState

/-- State-mutating operation issued by a client, covering every handler that
writes shared state. -/
inductive Op where
  | act : String → String → Op
  | frame : (List Nat → Bool) → List Nat → Op
  | save : String → String → Json → Op

/-- Effect of one operation on the whole-system state. -/
def applyOp (w : World) : Op → World
  | Op.act a now => { w with st := (handle_action w.st a now).1 }
  | Op.frame decode contents =>
    { w with st := (receive_frame decode w.st contents).1 }
  | Op.save ts now payload =>
    let r := save_result ts now w.files w.st payload
    { files := r.1, st := r.2.1 }

/-- Running a sequence of operations from the freshly initialized backend
(empty records directory, AppState.__init__). -/
def runOps (ops : List Op) : World :=
  ops.foldl applyOp { files := [], st := initState }

/-! Static model of the lock discipline.  Each handler body is transcribed as
the sequence of its steps: whether the step runs while app_lock is held, and
what kind of step it is (shared-state write or read, durable I/O, in-memory
computation, or scheduling a background task). -/

/-- Kind of one step of a handler body. -/
inductive StepKind where
  | sharedWrite : StepKind
  | sharedRead : StepKind
  | diskWrite : StepKind
  | diskRead : StepKind
  | memCompute : StepKind
  | scheduleTask : StepKind
deriving DecidableEq

/-- One step of a handler body: its kind and whether app_lock is held while
it executes. -/
structure HandlerStep where
  locked : Bool
  kind : StepKind
deriving DecidableEq

/-- Steps of get_status (lines 46-55): one locked read of shared state. -/
def get_status_steps : List HandlerStep :=
  [⟨true, StepKind.sharedRead⟩]

/-- Steps of get_latest_frame (lines 58-64): one locked read of shared
state. -/
def get_latest_frame_steps : List HandlerStep :=
  [⟨true, StepKind.sharedRead⟩]

/-- Steps of receive_frame (lines 69-91): await file.read() outside the lock,
then under the lock the write to latest_frame_jpeg and the in-memory decode
check. -/
def receive_frame_steps : List HandlerStep :=
  [⟨false, StepKind.diskRead⟩,
   ⟨true, StepKind.sharedWrite⟩,
   ⟨true, StepKind.memCompute⟩]

/-- Steps of handle_action (lines 96-129), all under the lock: read of
current_scan_data, scheduling of the background save task, append to
scan_history, and the writes to app_state / ui_state_text /
current_scan_data. -/
def handle_action_steps : List HandlerStep :=
  [⟨true, StepKind.sharedRead⟩,
   ⟨true, StepKind.scheduleTask⟩,
   ⟨true, StepKind.sharedWrite⟩,
   ⟨true, StepKind.sharedWrite⟩]

/-- Steps of save_result (lines 134-157): the durable record write (open +
json.dump) outside the lock, then the append to scan_history under the
lock. -/
def save_result_steps : List HandlerStep :=
  [⟨false, StepKind.diskWrite⟩,
   ⟨true, StepKind.sharedWrite⟩]

/-- Steps of get_scan_history (lines 160-167): one locked read of shared
state. -/
def get_scan_history_steps : List HandlerStep :=
  [⟨true, StepKind.sharedRead⟩]

/-- Steps of get_scan_record (lines 170-185): the existence check and the
file read, both outside the lock (no shared state is touched). -/
def get_scan_record_steps : List HandlerStep :=
  [⟨false, StepKind.diskRead⟩,
   ⟨false, StepKind.diskRead⟩]

/-- Steps of the background task save_scan_record (lines 190-198): one
durable write outside the lock. -/
def save_scan_record_task_steps : List HandlerStep :=
  [⟨false, StepKind.diskWrite⟩]

/-- Steps of health_check (lines 203-211): reads len(state.scan_history)
without acquiring the lock. -/
def health_check_steps : List HandlerStep :=
  [⟨false, StepKind.sharedRead⟩]

/-- Steps of every request handler and background task of the backend. -/
def allHandlerSteps : List HandlerStep :=
  get_status_steps ++ get_latest_frame_steps ++ receive_frame_steps ++
  handle_action_steps ++ save_result_steps ++ get_scan_history_steps ++
  get_scan_record_steps ++ save_scan_record_task_steps ++ health_check_steps

/-- Predicate: every shared-state write in the given steps happens while the
lock is held. -/
def mutationsLocked (steps : List HandlerStep) : Bool :=
  steps.all (fun st => !(st.kind = StepKind.sharedWrite) || st.locked)

/-- Predicate: no durable I/O step (disk read or write) happens while the
lock is held. -/
def noDiskUnderLock (steps : List HandlerStep) : Bool :=
  steps.all (fun st =>
    !st.locked ||
      (!(st.kind = StepKind.diskWrite) && !(st.kind = StepKind.diskRead)))

/-! Helper lemmas shared by several results. -/

/-- Reading a path just written returns the written content. -/
theorem lookupRecordFile_writeRecordFile (fs : Files) (p : String)
    (c : FileContent) :
    lookupRecordFile (writeRecordFile fs p c) p = some c := by
  induction fs with
  | nil => simp [writeRecordFile, lookupRecordFile]
  | cons hd t ih =>
    obtain ⟨q, d⟩ := hd
    by_cases hq : q = p
    · simp [writeRecordFile, lookupRecordFile, hq]
    · simp [writeRecordFile, lookupRecordFile, hq, ih]

/-- handle_action preserves the invariant that the IDLE state carries no
session. -/
theorem idleNoSession_handle_action (s : AppState) (a now : String)
    (h : s.app_state = ("IDLE") → s.current_scan_data = none) :
    (handle_action s a now).1.app_state = ("IDLE") →
      (handle_action s a now).1.current_scan_data = none := by
  by_cases h1 : a = ("start-scan")
  · simp [handle_action, h1]
  · by_cases h2 : a = ("stop-scan")
    · cases hc : s.current_scan_data with
      | none => simp [handle_action, h1, h2, hc]
      | some d =>
        by_cases ht : d.truthy <;> simp [handle_action, h1, h2, hc, ht]
    · by_cases h3 : a = ("proceed-to-scan")
      · simp [handle_action, h1, h2, h3]
      · simpa [handle_action, h1, h2, h3] using h

/-- receive_frame touches only latest_frame_jpeg. -/
theorem receive_frame_state (decode : List Nat → Bool) (s : AppState)
    (contents : List Nat) :
    (receive_frame decode s contents).1 =
      { s with latest_frame_jpeg := some contents } := by
  cases hd : decode contents <;> simp [receive_frame, hd]

/-- save_result never changes app_state or current_scan_data. -/
theorem save_result_session_fields (ts now : String) (fs : Files)
    (s : AppState) (result_data : Json) :
    (save_result ts now fs s result_data).2.1.app_state = s.app_state ∧
    (save_result ts now fs s result_data).2.1.current_scan_data =
      s.current_scan_data := by
  cases hg : result_data.getD ("analysis") (Json.obj []) <;>
    simp [save_result, hg]

/-- Every operation preserves the invariant that the IDLE state carries no
session. -/
theorem idleNoSession_applyOp (w : World) (op : Op)
    (h : w.st.app_state = ("IDLE") → w.st.current_scan_data = none) :
    (applyOp w op).st.app_state = ("IDLE") →
      (applyOp w op).st.current_scan_data = none := by
  cases op with
  | act a now => exact idleNoSession_handle_action w.st a now h
  | frame decode contents =>
    intro hi
    have hs := receive_frame_state decode w.st contents
    simp [applyOp, hs] at hi ⊢
    exact h hi
  | save ts now payload =>
    intro hi
    have hs := save_result_session_fields ts now w.files w.st payload
    simp [applyOp] at hi ⊢
    rw [hs.2]
    exact h (hs.1 ▸ hi)

/-- Folding any operation sequence preserves the invariant that the IDLE
state carries no session. -/
theorem idleNoSession_foldl (ops : List Op) :
    ∀ w : World, (w.st.app_state = ("IDLE") → w.st.current_scan_data = none) →
      (ops.foldl applyOp w).st.app_state = ("IDLE") →
      (ops.foldl applyOp w).st.current_scan_data = none := by
  induction ops with
  | nil => intro w h; exact h
  | cons op t ih =>
    intro w h
    exact ih (applyOp w op) (idleNoSession_applyOp w op h)

/-- In every reachable state, the IDLE state carries no session. -/
theorem idleNoSession_runOps (ops : List Op)
    (h : (runOps ops).st.app_state = ("IDLE")) :
    (runOps ops).st.current_scan_data = none :=
  idleNoSession_foldl ops { files := [], st := initState } (fun _ => rfl) h

/-- handle_action only ever appends to scan_history. -/
theorem handle_action_history_extends (s : AppState) (a now : String) :
    ∃ suf, (handle_action s a now).1.scan_history = s.scan_history ++ suf := by
  by_cases h1 : a = ("start-scan")
  · exact ⟨[], by simp [handle_action, h1]⟩
  · by_cases h2 : a = ("stop-scan")
    · cases hc : s.current_scan_data with
      | none => exact ⟨[], by simp [handle_action, h1, h2, hc]⟩
      | some d =>
        by_cases ht : d.truthy
        · exact ⟨[d], by simp [handle_action, h1, h2, hc, ht]⟩
        · exact ⟨[], by simp [handle_action, h1, h2, hc, ht]⟩
    · by_cases h3 : a = ("proceed-to-scan")
      · exact ⟨[], by simp [handle_action, h1, h2, h3]⟩
      · exact ⟨[], by simp [handle_action, h1, h2, h3]⟩

/-- save_result only ever appends to scan_history. -/
theorem save_result_history_extends (ts now : String) (fs : Files)
    (s : AppState) (result_data : Json) :
    ∃ suf, (save_result ts now fs s result_data).2.1.scan_history =
      s.scan_history ++ suf := by
  cases hg : result_data.getD ("analysis") (Json.obj []) with
  | obj afields =>
    refine ⟨[Json.obj
      [(("timestamp"), Json.str now),
       (("filename"),
        Json.str (("records/") ++ (("scan_") ++ ts) ++ (".json"))),
       (("v0"), dictGetNone afields ("v0")),
       (("r_squared"), dictGetNone afields ("r_squared"))]], ?_⟩
    simp [save_result, hg]
  | _ => exact ⟨[], by simp [save_result, hg]⟩

/-- Every operation only ever appends to scan_history. -/
theorem applyOp_history_extends (w : World) (op : Op) :
    ∃ suf, (applyOp w op).st.scan_history = w.st.scan_history ++ suf := by
  cases op with
  | act a now => simpa [applyOp] using handle_action_history_extends w.st a now
  | frame decode contents =>
    exact ⟨[], by simp [applyOp, receive_frame_state]⟩
  | save ts now payload =>
    simpa [applyOp] using save_result_history_extends ts now w.files w.st payload

/-! Claim results. -/

/-- C6: for every history list of length N, GET /history returns
min(N, 20) entries, they are the most recent appended entries in
oldest-to-newest order (a suffix of the history), the exposed list never
exceeds 20 entries, and the read leaves the state unchanged. -/
theorem get_scan_history_bounded_view (s : AppState) :
    (get_scan_history s).1 = s ∧
    (get_scan_history s).2 = Json.obj
      [(("count"), Json.num (Int.ofNat s.scan_history.length)),
       (("scans"), Json.arr (historyView s))] ∧
    (historyView s).length = min s.scan_history.length 20 ∧
    (historyView s).length ≤ 20 ∧
    s.scan_history =
      s.scan_history.take (s.scan_history.length - 20) ++ historyView s := by
  refine ⟨rfl, rfl, ?_, ?_, (List.take_append_drop _ _).symm⟩ <;>
    simp [historyView] <;> omega

/-- C7: for every state and every action name outside the three recognized
ones, handle_action returns the state unchanged, schedules nothing, and
reports a 400 error whose detail is the string "Unknown action: " followed
by the offending name. -/
theorem unknown_action_rejected (s : AppState) (a now : String)
    (h1 : a ≠ ("start-scan")) (h2 : a ≠ ("stop-scan"))
    (h3 : a ≠ ("proceed-to-scan")) :
    handle_action s a now =
      (s, [], Except.error ⟨400, ("Unknown action: ") ++ a⟩) := by
  simp [handle_action, h1, h2, h3]

/-- Witness for C7 at the concrete action name "foo" from the initial
state. -/
theorem unknown_action_rejected_witness :
    handle_action initState ("foo") ("t") =
      (initState, [],
       Except.error ⟨400, ("Unknown action: ") ++ ("foo")⟩) :=
  unknown_action_rejected initState ("foo") ("t")
    (by decide) (by decide) (by decide)

/-- C9: in the step transcription of every handler, each shared-state
mutation happens while app_lock is held, and no durable I/O step happens
while app_lock is held. -/
theorem lock_discipline :
    mutationsLocked allHandlerSteps = true ∧
    noDiskUnderLock allHandlerSteps = true := by
  decide

/-- Reachable state in which a scan is in progress: start-scan followed by
proceed-to-scan. -/
def scanningWorld : World :=
  runOps [Op.act ("start-scan") ("t1"), Op.act ("proceed-to-scan") ("t2")]

/-- C1 counterexample: the pair (SCANNING, start-scan) is not listed in the
transition table, yet handle_action accepts it with a success response and
changes the state to BLANKING_COUNTDOWN instead of rejecting it and leaving
the state unchanged. -/
theorem startScan_accepted_from_scanning :
    scanningWorld.st.app_state = ("SCANNING") ∧
    (handle_action scanningWorld.st ("start-scan") ("t3")).2.2 =
      Except.ok (Json.obj [(("status"), Json.str ("scan_started"))]) ∧
    (handle_action scanningWorld.st ("start-scan") ("t3")).1.app_state =
      ("BLANKING_COUNTDOWN") :=
  ⟨rfl, rfl, rfl⟩

/-- C1 amended: handle_action implements the transition table with the state
guards dropped — start-scan is accepted from every state (moving to
BLANKING_COUNTDOWN with a fresh session), proceed-to-scan is accepted from
every state (moving to SCANNING without touching the session), stop-scan is
accepted from every state (moving to IDLE, persisting and recording the
session when one exists), and only unrecognized action names are rejected
with an error naming the action and the state unchanged. -/
theorem handle_action_transition_table (s : AppState) (now a : String) :
    handle_action s ("start-scan") now =
      ({ s with
          app_state := ("BLANKING_COUNTDOWN")
          ui_state_text := ("State: BLANKING_COUNTDOWN")
          current_scan_data := some (newSession now) },
       [], Except.ok (Json.obj [(("status"), Json.str ("scan_started"))])) ∧
    handle_action s ("proceed-to-scan") now =
      ({ s with
          app_state := ("SCANNING")
          ui_state_text := ("State: SCANNING") },
       [],
       Except.ok (Json.obj [(("status"), Json.str ("proceeding_to_scan"))])) ∧
    (handle_action s ("stop-scan") now).1.app_state = ("IDLE") ∧
    (handle_action s ("stop-scan") now).1.current_scan_data = none ∧
    (handle_action s ("stop-scan") now).2.2 =
      Except.ok (Json.obj [(("status"), Json.str ("scan_stopped"))]) ∧
    (pyTruthy s.current_scan_data = false →
      (handle_action s ("stop-scan") now).1.scan_history = s.scan_history ∧
      (handle_action s ("stop-scan") now).2.1 = []) ∧
    (∀ d : Json, s.current_scan_data = some d → d.truthy = true →
      (handle_action s ("stop-scan") now).1.scan_history =
        s.scan_history ++ [d] ∧
      (handle_action s ("stop-scan") now).2.1 =
        [BgTask.save_scan_record d]) ∧
    (a ≠ ("start-scan") → a ≠ ("stop-scan") → a ≠ ("proceed-to-scan") →
      handle_action s a now =
        (s, [], Except.error ⟨400, ("Unknown action: ") ++ a⟩)) := by
  refine ⟨rfl, rfl, ?_, ?_, ?_, ?_, ?_, ?_⟩
  · cases hc : s.current_scan_data with
    | none => simp [handle_action, hc]
    | some d => by_cases ht : d.truthy <;> simp [handle_action, hc, ht]
  · cases hc : s.current_scan_data with
    | none => simp [handle_action, hc]
    | some d => by_cases ht : d.truthy <;> simp [handle_action, hc, ht]
  · cases hc : s.current_scan_data with
    | none => simp [handle_action, hc]
    | some d => by_cases ht : d.truthy <;> simp [handle_action, hc, ht]
  · intro hf
    cases hc : s.current_scan_data with
    | none => simp [handle_action, hc]
    | some d =>
      rw [hc] at hf
      simp [pyTruthy] at hf
      simp [handle_action, hc, hf]
  · intro d hc ht
    simp [handle_action, hc, ht]
  · intro h1 h2 h3
    simp [handle_action, h1, h2, h3]

/-- Reachable state with a live session: a single start-scan. -/
def startedWorld : World := runOps [Op.act ("start-scan") ("t0")]

/-- Witness for C1 amended: at the initial state (no session) and the
started state (session present), with the concrete unknown action name
"bogus". -/
theorem handle_action_transition_table_witness :
    ((handle_action initState ("stop-scan") ("t")).1.scan_history = [] ∧
     (handle_action initState ("stop-scan") ("t")).2.1 = []) ∧
    ((handle_action startedWorld.st ("stop-scan") ("t")).1.scan_history =
       [newSession ("t0")] ∧
     (handle_action startedWorld.st ("stop-scan") ("t")).2.1 =
       [BgTask.save_scan_record (newSession ("t0"))]) ∧
    handle_action initState ("bogus") ("t") =
      (initState, [],
       Except.error ⟨400, ("Unknown action: ") ++ ("bogus")⟩) :=
  ⟨(handle_action_transition_table initState ("t") ("bogus")).2.2.2.2.2.1
    rfl,
   (handle_action_transition_table startedWorld.st ("t")
      ("bogus")).2.2.2.2.2.2.1 (newSession ("t0")) rfl rfl,
   (handle_action_transition_table initState ("t")
      ("bogus")).2.2.2.2.2.2.2 (by decide) (by decide) (by decide)⟩

/-- C2 counterexample: issuing proceed-to-scan as the very first action
reaches SessionState SCANNING with no Session, so a Session does not exist
in every non-IDLE reachable state. -/
theorem scanning_without_session_reachable :
    (runOps [Op.act ("proceed-to-scan") ("t0")]).st.app_state =
      ("SCANNING") ∧
    (runOps [Op.act ("proceed-to-scan") ("t0")]).st.current_scan_data =
      none :=
  ⟨rfl, rfl⟩

/-- C2 amended: in every reachable state, only the forward direction of the
invariant holds — a current Session exists only if the SessionState is not
IDLE (equivalently, the IDLE state never carries a Session); the converse
fails because proceed-to-scan is accepted from IDLE without creating a
Session. -/
theorem session_only_outside_idle (ops : List Op)
    (h : (runOps ops).st.app_state = ("IDLE")) :
    (runOps ops).st.current_scan_data = none :=
  idleNoSession_runOps ops h

/-- Witness for C2 amended: after start-scan followed by stop-scan the state
is IDLE again and the theorem yields that no session remains. -/
theorem session_only_outside_idle_witness :
    (runOps [Op.act ("start-scan") ("a"),
             Op.act ("stop-scan") ("b")]).st.current_scan_data = none :=
  session_only_outside_idle
    [Op.act ("start-scan") ("a"), Op.act ("stop-scan") ("b")] rfl

/-- Reachable state in which a decodable frame of bytes [1, 2, 3] has been
stored. -/
def framedWorld : World := runOps [Op.frame (fun _ => true) [1, 2, 3]]

/-- C3 counterexample: with previous frame [1, 2, 3] stored, ingesting the
undecodable payload [9] reports an error but leaves the store holding the
new bytes [9], not the previous frame — the assignment happens before the
decode check. -/
theorem invalid_frame_overwrites_store :
    framedWorld.st.latest_frame_jpeg = some [1, 2, 3] ∧
    (receive_frame (fun _ => false) framedWorld.st [9]).2 =
      Except.error ⟨500, strOfHTTPException ⟨400, ("Invalid JPEG")⟩⟩ ∧
    (receive_frame (fun _ => false) framedWorld.st [9]).1.latest_frame_jpeg =
      some [9] ∧
    (receive_frame (fun _ => false) framedWorld.st
        [9]).1.latest_frame_jpeg ≠ framedWorld.st.latest_frame_jpeg :=
  ⟨rfl, rfl, rfl, by decide⟩

/-- C3 amended: for every stored previous frame and every payload whose
bytes are not decodable, the frame-ingest operation reports an error, but
the stored latest frame afterwards equals the uploaded payload (the store
is overwritten before validation); the rest of the shared state is
unchanged. -/
theorem receive_frame_invalid_stores_upload (decode : List Nat → Bool)
    (s : AppState) (contents : List Nat)
    (h : decode contents = false) :
    (receive_frame decode s contents).1.latest_frame_jpeg = some contents ∧
    (receive_frame decode s contents).1.app_state = s.app_state ∧
    (receive_frame decode s contents).1.scan_history = s.scan_history ∧
    (receive_frame decode s contents).1.current_scan_data =
      s.current_scan_data ∧
    (receive_frame decode s contents).2 =
      Except.error ⟨500, strOfHTTPException ⟨400, ("Invalid JPEG")⟩⟩ := by
  simp [receive_frame, h]

/-- Witness for C3 amended: ingesting [9] with a codec that rejects it. -/
theorem receive_frame_invalid_stores_upload_witness :
    (receive_frame (fun _ => false) initState [9]).1.latest_frame_jpeg =
      some [9] ∧
    (receive_frame (fun _ => false) initState [9]).2 =
      Except.error ⟨500, strOfHTTPException ⟨400, ("Invalid JPEG")⟩⟩ :=
  ⟨(receive_frame_invalid_stores_upload (fun _ => false) initState [9]
      rfl).1,
   (receive_frame_invalid_stores_upload (fun _ => false) initState [9]
      rfl).2.2.2.2⟩

/-- Sample client payload carrying an analysis object with v0 and
r_squared. -/
def samplePayload : Json :=
  Json.obj [(("analysis"),
    Json.obj [(("v0"), Json.num 1), (("r_squared"), Json.num 2)])]

/-- Result of saving samplePayload on the fresh backend at timestamp
20260101_120000. -/
def savedTriple : Files × AppState × Except HTTPException Json :=
  save_result ("20260101_120000") ("T") [] initState samplePayload

/-- C4 counterexample: POST /save-result returns the identifier
records/scan_20260101_120000.json, but GET /records with exactly that
returned identifier fails (the handler prepends records/ and appends .json
again), so the returned identifier does not retrieve the payload. -/
theorem returned_filename_not_retrievable :
    savedTriple.2.2 = Except.ok (Json.obj
      [(("status"), Json.str ("saved")),
       (("filename"), Json.str ("records/scan_20260101_120000.json"))]) ∧
    get_scan_record savedTriple.1 ("records/scan_20260101_120000.json") =
      Except.error ⟨500, strOfHTTPException ⟨404, ("Scan not found")⟩⟩ :=
  ⟨rfl, rfl⟩

/-- C4 amended: for every payload whose analysis field is absent or an
object, POST /save-result writes the record to storage before responding,
appends a summary entry to the history, and returns the record's filename
records/scan_(ts).json; retrieval succeeds and yields the original payload
when GET /records is given the derived identifier scan_(ts) — the filename
stripped of its directory and extension — rather than the returned filename
itself. -/
theorem save_result_roundtrip (ts now : String) (fs : Files) (s : AppState)
    (result_data : Json) (afields : List (String × Json))
    (h : result_data.getD ("analysis") (Json.obj []) = Json.obj afields) :
    (save_result ts now fs s result_data).2.2 =
      Except.ok (Json.obj
        [(("status"), Json.str ("saved")),
         (("filename"),
          Json.str (("records/") ++ (("scan_") ++ ts) ++ (".json")))]) ∧
    lookupRecordFile (save_result ts now fs s result_data).1
        (("records/") ++ (("scan_") ++ ts) ++ (".json")) =
      some (FileContent.good result_data) ∧
    (save_result ts now fs s result_data).2.1.scan_history =
      s.scan_history ++
        [Json.obj
          [(("timestamp"), Json.str now),
           (("filename"),
            Json.str (("records/") ++ (("scan_") ++ ts) ++ (".json"))),
           (("v0"), dictGetNone afields ("v0")),
           (("r_squared"), dictGetNone afields ("r_squared"))]] ∧
    get_scan_record (save_result ts now fs s result_data).1
        (("scan_") ++ ts) = Except.ok result_data := by
  refine ⟨?_, ?_, ?_, ?_⟩
  · simp [save_result, h]
  · simp [save_result, h, lookupRecordFile_writeRecordFile]
  · simp [save_result, h]
  · have hw : lookupRecordFile (save_result ts now fs s result_data).1
        (("records/") ++ (("scan_") ++ ts) ++ (".json")) =
        some (FileContent.good result_data) := by
      simp [save_result, h, lookupRecordFile_writeRecordFile]
    simp [get_scan_record, hw]

/-- Witness for C4 amended: saving samplePayload at the concrete timestamp
and retrieving it with the derived identifier. -/
theorem save_result_roundtrip_witness :
    get_scan_record savedTriple.1 (("scan_") ++ ("20260101_120000")) =
      Except.ok samplePayload :=
  (save_result_roundtrip ("20260101_120000") ("T") [] initState
    samplePayload
    [(("v0"), Json.num 1), (("r_squared"), Json.num 2)] rfl).2.2.2

/-- Records directory holding one file whose bytes json.load cannot
parse. -/
def corruptFiles : Files := [(("records/bad.json"), FileContent.corrupt)]

/-- C5: evaluation of the retrieval handler at the failing inputs.  For an
identifier never written it responds with status 500 (the 404 raised inside
the try block is caught by the blanket except and rewrapped), not with the
distinguishing 404 not-found; for a record whose stored bytes cannot be
parsed it likewise responds with a generic 500 carrying the parser message,
not a distinguishing CorruptRecord condition. -/
theorem get_scan_record_missing_gives_500 :
    get_scan_record [] ("nonexistent") =
      Except.error ⟨500, strOfHTTPException ⟨404, ("Scan not found")⟩⟩ ∧
    strOfHTTPException ⟨404, ("Scan not found")⟩ =
      ("404: Scan not found") ∧
    get_scan_record corruptFiles ("bad") =
      Except.error ⟨500, jsonDecodeErrMsg⟩ :=
  ⟨rfl, rfl, rfl⟩

/-- C8: in every reachable state whose SessionState is IDLE, stop-scan is a
no-op success — the state stays IDLE, the history is unchanged, no
background persistence task is scheduled, and the response is the normal
scan_stopped confirmation. -/
theorem stop_scan_idle_noop (ops : List Op) (now : String)
    (h : (runOps ops).st.app_state = ("IDLE")) :
    (handle_action (runOps ops).st ("stop-scan") now).1.app_state =
      ("IDLE") ∧
    (handle_action (runOps ops).st ("stop-scan") now).1.scan_history =
      (runOps ops).st.scan_history ∧
    (handle_action (runOps ops).st ("stop-scan") now).2.1 = [] ∧
    (handle_action (runOps ops).st ("stop-scan") now).2.2 =
      Except.ok (Json.obj [(("status"), Json.str ("scan_stopped"))]) := by
  have hn : (runOps ops).st.current_scan_data = none :=
    idleNoSession_runOps ops h
  simp [handle_action, hn]

/-- Witness for C8: stop-scan issued on the freshly initialized backend. -/
theorem stop_scan_idle_noop_witness :
    (handle_action (runOps []).st ("stop-scan") ("t")).1.app_state =
      ("IDLE") ∧
    (handle_action (runOps []).st ("stop-scan") ("t")).1.scan_history =
      (runOps []).st.scan_history ∧
    (handle_action (runOps []).st ("stop-scan") ("t")).2.1 = [] ∧
    (handle_action (runOps []).st ("stop-scan") ("t")).2.2 =
      Except.ok (Json.obj [(("status"), Json.str ("scan_stopped"))]) :=
  stop_scan_idle_noop [] ("t") rfl

/-- C10: the count field returned by GET /history is the full length of the
history — which only ever grows, every operation extending it by a
(possibly empty) suffix — and once more than 20 entries exist the count
exceeds 20 while the returned scans list is capped at exactly 20 entries,
so the count exceeds the length of the returned view. -/
theorem history_count_total (s : AppState) (w : World) (op : Op) :
    (get_scan_history s).2 = Json.obj
      [(("count"), Json.num (Int.ofNat s.scan_history.length)),
       (("scans"), Json.arr (historyView s))] ∧
    (∃ suf, (applyOp w op).st.scan_history = w.st.scan_history ++ suf) ∧
    (20 < s.scan_history.length →
      (historyView s).length = 20 ∧
      (historyView s).length < s.scan_history.length) := by
  refine ⟨rfl, applyOp_history_extends w op, ?_⟩
  intro hlen
  constructor <;> simp [historyView] <;> omega

/-- State holding twenty-one history entries. -/
def manyState : AppState :=
  { initState with scan_history := List.replicate 21 Json.null }

/-- Witness for C10 at a history of twenty-one entries: the view has exactly
20 entries while the count (the full length, 21) exceeds it. -/
theorem history_count_total_witness :
    (historyView manyState).length = 20 ∧
    (historyView manyState).length < manyState.scan_history.length :=
  (history_count_total manyState { files := [], st := initState }
    (Op.act ("stop-scan") ("t"))).2.2 (by simp [manyState])

end MobileSpectro
